import Mathlib

/-
Verification of the OCR conversion server (`app.py`).

The server has two pieces of logic:
  * `run_gemini_ocr(base64_image_data, mime_type)` — decodes the base64
    payload, opens it as an image, calls the external Gemini model, parses
    the model text as JSON and normalises everything into a Python dict
    that is either `{"extractedText": ...}` or `{"error": ...}`.
  * `run_ocr_endpoint()` — the Flask handler for `POST /run-ocr`: three
    validation steps (JSON body, presence of the two fields, comma in the
    data URI) followed by dispatch on the invoker result.

The embedding models Python/JSON values with the inductive `Json`, Python
exceptions with `PyExn`, and the external libraries (base64 decoding, PIL
image opening, the Gemini client, `json.loads`) as an oracle record
`OcrEnv`, since those are collaborator capabilities, not code of this
repository.  Flask request handling is modelled by `HttpRequest`
(`is_json` mirrors the Content-Type check of `request.is_json`;
`parsedBody` is the result of parsing the raw body as JSON, `none` when
parsing fails, in which case `request.json` raises `BadRequest` and the
framework, not the handler, produces the 400 response).
-/

set_option autoImplicit false

/-- A JSON value, as produced by parsing a request body or model output.
Doubles as the model of the corresponding Python value (`null` ↦ `None`,
`obj` ↦ `dict`, `arr` ↦ `list`, ...). -/
inductive Json where
  | null
  | bool (b : Bool)
  | num (n : Int)
  | str (s : String)
  | arr (elems : List Json)
  | obj (fields : List (String × Json))

/-- Python truthiness of the Python value a `Json` stands for
(`bool(x)`), used by `if not base64_data_with_prefix or not mime_type`. -/
def Json.pyTruthy : Json → Bool
  | .null => false
  | .bool b => b
  | .num n => n != 0
  | .str s => !s.data.isEmpty
  | .arr elems => !elems.isEmpty
  | .obj fields => !fields.isEmpty

/-- The Python type name of the value a `Json` stands for, as it appears
in an `AttributeError` message. -/
def Json.pyTypeName : Json → String
  | .null => "NoneType"
  | .bool _ => "bool"
  | .num _ => "int"
  | .str _ => "str"
  | .arr _ => "list"
  | .obj _ => "dict"

/-- A Python dict with string keys, e.g. the value returned by
`run_gemini_ocr` and the argument of `jsonify`. -/
abbrev PyDict := List (String × Json)

/-- Key lookup in a dict: `d.get(k)` returning `None` (`none`) when the
key is absent. -/
def pyLookup (fields : PyDict) (k : String) : Option Json :=
  match fields with
  | [] => none
  | (k2, v) :: rest => if k2 = k then some v else pyLookup rest k

/-- Membership test on the keys of a dict: `k in d`. -/
def pyDictContains (d : PyDict) (k : String) : Bool :=
  d.any fun p => p.1 == k

/-- Truthiness of an optional Python value (`None` is falsy). -/
def pyTruthyOpt : Option Json → Bool
  | none => false
  | some j => j.pyTruthy

/-- A raised Python exception: its class name, its message (`str(e)`),
and whether its class is (a subclass of) `genai.errors.APIError`, which
is what the first `except` clause of `run_gemini_ocr` tests. -/
structure PyExn where
  className : String
  message : String
  isApiError : Bool

/-- Raw image bytes (the result of `b64decode`). -/
abbrev Bytes := List Nat

/-- The external capabilities used inside the `try` block of
`run_gemini_ocr`, modelled as oracles: `b64decode` from the base64
module, `Image.open(BytesIO(...))` from PIL (the image object itself is
abstracted to a token), `client.models.generate_content(...).text` from
the Gemini SDK, and `json.loads` from the standard library.  Each may
raise (`Except.error`). -/
structure OcrEnv where
  b64decode : String → Except PyExn Bytes
  imageOpen : Bytes → Except PyExn Nat
  generateContent : Nat → Except PyExn String
  jsonLoads : String → Except PyExn Json

/-- `parsed.get("extractedText")`: attribute access `.get` succeeds only
on a dict; on any other Python value it raises `AttributeError`. -/
def pyDictGet (j : Json) (k : String) : Except PyExn (Option Json) :=
  match j with
  | .obj fields => .ok (pyLookup fields k)
  | other =>
      .error ⟨"AttributeError", other.pyTypeName ++ " object has no attribute get", false⟩

/-- The default substituted when the model output lacks `extractedText`. -/
def noTextMsg : String := "No text could be extracted."

/-- The body of the `try` block of `run_gemini_ocr`: each stage either
produces a value or raises, short-circuiting to the `except` clauses. -/
def run_gemini_ocr_try (env : OcrEnv) (base64_image_data : String) : Except PyExn PyDict :=
  match env.b64decode base64_image_data with
  | .error e => .error e
  | .ok image_bytes =>
    match env.imageOpen image_bytes with
    | .error e => .error e
    | .ok image =>
      match env.generateContent image with
      | .error e => .error e
      | .ok text =>
        match env.jsonLoads text with
        | .error e => .error e
        | .ok parsed_model_output =>
          match pyDictGet parsed_model_output "extractedText" with
          | .error e => .error e
          | .ok extracted =>
              .ok [("extractedText", extracted.getD (Json.str noTextMsg))]

/-- The dict `run_gemini_ocr` returns on a `genai.errors.APIError`. -/
def apiErrDict (e : PyExn) : PyDict :=
  [("error", Json.str ("API Error: " ++ e.className ++ ". Check your API key or usage limits."))]

/-- The dict `run_gemini_ocr` returns on any other exception. -/
def internalErrDict (e : PyExn) : PyDict :=
  [("error", Json.str ("Internal Server Error: " ++ e.className ++ ". Details: " ++ e.message))]

/-- `run_gemini_ocr(base64_image_data, mime_type)`: the `try` body with
its two `except` clauses.  The `mime_type` parameter is received (as
whatever Python value the handler passes) and never used, exactly as in
the source. -/
def run_gemini_ocr (env : OcrEnv) (base64_image_data : String) (mime_type : Option Json) : PyDict :=
  match run_gemini_ocr_try env base64_image_data with
  | .ok d => d
  | .error e => if e.isApiError then apiErrDict e else internalErrDict e

/-- The Flask request as the handler observes it: `is_json` is
`request.is_json` (a Content-Type test), `parsedBody` is the JSON parse
of the raw body (`none` when the body is not valid JSON, in which case
`request.json` raises `BadRequest`). -/
structure HttpRequest where
  is_json : Bool
  parsedBody : Option Json

/-- Outcome of one request to `/run-ocr` as seen at the boundary of the
handler function. -/
inductive HandlerResult where
  /-- The handler returned normally: `jsonify(body)` with this status. -/
  | ok (status : Nat) (body : PyDict)
  /-- `request.json` raised `BadRequest` (body not valid JSON): the
  framework answers 400 with its own default error page, not the
  handler's JSON body. -/
  | badRequestAbort
  /-- An exception escaped the handler uncaught; the framework, not the
  handler, turns it into a 500 response (debug page / HTML). -/
  | uncaughtExn (e : PyExn)

/-- `base64_data_with_prefix.split(',', 1)[1]` applied to the Python
value found under `imageBase64`: on a string with a comma the remainder
after the first comma, on a comma-free string an `IndexError` (caught by
the handler), on any non-string value an `AttributeError` (not caught). -/
inductive StripResult where
  | stripped (payload : String)
  | indexError
  | attrError (typeName : String)

/-- Everything after the first `','`, or `none` when there is none. -/
def afterFirstComma : List Char → Option (List Char)
  | [] => none
  | c :: cs => if c = ',' then some cs else afterFirstComma cs

/-- The data-URI splitting step of the handler (see `StripResult`). -/
def stripDataUri : Option Json → StripResult
  | some (Json.str s) =>
      match afterFirstComma s.data with
      | some cs => .stripped (String.mk cs)
      | none => .indexError
  | some j => .attrError j.pyTypeName
  | none => .attrError "NoneType"

/-- Body of the 400 answer of validation step 1. -/
def reqMustBeJsonBody : PyDict := [("error", Json.str "Request must be JSON")]

/-- Body of the 400 answer of validation step 2. -/
def missingBody : PyDict := [("error", Json.str "Missing image data or MIME type in request.")]

/-- Body of the 400 answer of validation step 3. -/
def invalidB64Body : PyDict := [("error", Json.str "Invalid base64 format received from client.")]

/-- The final dispatch of the handler on the invoker's dict:
`if "error" in result: return jsonify(result), 500` else 200. -/
def dispatchOcrResult (result : PyDict) : HandlerResult :=
  if pyDictContains result "error" then .ok 500 result else .ok 200 result

/-- The Flask handler `run_ocr_endpoint` for `POST /run-ocr`. -/
def run_ocr_endpoint (env : OcrEnv) (req : HttpRequest) : HandlerResult :=
  if !req.is_json then
    .ok 400 reqMustBeJsonBody
  else
    match req.parsedBody with
    | none => .badRequestAbort
    | some (Json.obj fields) =>
      let b64v := pyLookup fields "imageBase64"
      let mtv := pyLookup fields "fileMimeType"
      if !pyTruthyOpt b64v || !pyTruthyOpt mtv then
        .ok 400 missingBody
      else
        match stripDataUri b64v with
        | .stripped base64_data => dispatchOcrResult (run_gemini_ocr env base64_data mtv)
        | .indexError => .ok 400 invalidB64Body
        | .attrError tn =>
            .uncaughtExn ⟨"AttributeError", tn ++ " object has no attribute split", false⟩
    | some data =>
        .uncaughtExn ⟨"AttributeError", data.pyTypeName ++ " object has no attribute get", false⟩

/-! ### Concrete sample data, used to exercise the theorems -/

/-- A non-API exception, e.g. raised by `b64decode` on bad input. -/
def vErr : PyExn := ⟨"ValueError", "bad payload", false⟩

/-- The exception PIL raises when bytes are not a recognisable image. -/
def imgErr : PyExn := ⟨"UnidentifiedImageError", "cannot identify image file", false⟩

/-- An API-level exception from the Gemini SDK. -/
def apiExn : PyExn := ⟨"ClientError", "quota exceeded", true⟩

/-- The exception `json.loads` raises on unparseable text. -/
def parseExn : PyExn := ⟨"JSONDecodeError", "Expecting value", false⟩

/-- A world where everything succeeds and the model answers with an
object carrying `extractedText`. -/
def plainEnv : OcrEnv :=
  ⟨fun _ => .ok [7], fun _ => .ok 0, fun _ => .ok "T",
   fun t => if t = "T" then .ok (Json.obj [("extractedText", Json.str "Hello")]) else .error parseExn⟩

/-- A world where the model answers with a JSON object having no
`extractedText` key. -/
def emptyObjEnv : OcrEnv :=
  ⟨fun _ => .ok [7], fun _ => .ok 0, fun _ => .ok "E",
   fun t => if t = "E" then .ok (Json.obj []) else .error parseExn⟩

/-- A world where the model call raises an API-level error. -/
def apiFailEnv : OcrEnv :=
  ⟨fun _ => .ok [7], fun _ => .ok 0, fun _ => .error apiExn, fun _ => .ok Json.null⟩

/-- A world where base64 decoding raises. -/
def decodeFailEnv : OcrEnv :=
  ⟨fun _ => .error vErr, fun _ => .ok 0, fun _ => .ok "T", fun _ => .ok Json.null⟩

/-- A world where the empty payload decodes to zero bytes and PIL then
rejects the empty byte string. -/
def emptyPayloadEnv : OcrEnv :=
  ⟨fun s => if s.data.isEmpty then .ok [] else .ok [7],
   fun bs => if bs.isEmpty then .error imgErr else .ok 0,
   fun _ => .ok "T",
   fun t => if t = "T" then .ok (Json.obj [("extractedText", Json.str "Hello")]) else .error parseExn⟩

/-- A well-formed request body. -/
def okFields : PyDict :=
  [("imageBase64", Json.str "data:image/png;base64,AAAA"), ("fileMimeType", Json.str "image/png")]

/-- A body whose base64 payload itself contains a further comma. -/
def multiCommaFields : PyDict :=
  [("imageBase64", Json.str "data:image/png;base64,AA,BB"), ("fileMimeType", Json.str "image/png")]

/-- A body with a data URI whose payload part is empty. -/
def emptyPayloadFields : PyDict :=
  [("imageBase64", Json.str "data:image/png;base64,"), ("fileMimeType", Json.str "image/png")]

/-- A body lacking the `fileMimeType` field. -/
def missingMimeFields : PyDict :=
  [("imageBase64", Json.str "data:image/png;base64,AAAA")]

/-- A request whose body is valid JSON but a JSON array, not an object. -/
def arrayBodyReq : HttpRequest := ⟨true, some (Json.arr [Json.num 1])⟩

/-- A request with JSON Content-Type whose body fails to parse as JSON. -/
def badJsonReq : HttpRequest := ⟨true, none⟩

/-! ### Helper lemmas -/

theorem afterFirstComma_append (pre post : List Char) (h : ',' ∉ pre) :
    afterFirstComma (pre ++ ',' :: post) = some post := by
  induction pre with
  | nil => simp [afterFirstComma]
  | cons c cs ih =>
      simp only [List.mem_cons, not_or] at h
      rw [List.cons_append, afterFirstComma, if_neg (fun hc => h.1 hc.symm)]
      exact ih h.2

theorem afterFirstComma_ne_nil (l : List Char) (x : List Char)
    (h : afterFirstComma l = some x) : l.isEmpty = false := by
  cases l with
  | nil => simp [afterFirstComma] at h
  | cons c cs => rfl

/-- If the `try` block succeeds, the dict it produced is a singleton
`{"extractedText": ...}`. -/
theorem run_gemini_ocr_try_ok_shape (env : OcrEnv) (d : String) (out : PyDict)
    (h : run_gemini_ocr_try env d = .ok out) :
    ∃ t, out = [("extractedText", t)] := by
  unfold run_gemini_ocr_try at h
  cases h1 : env.b64decode d with
  | error e => simp only [h1] at h; exact nomatch h
  | ok bs =>
    simp only [h1] at h
    cases h2 : env.imageOpen bs with
    | error e => simp only [h2] at h; exact nomatch h
    | ok img =>
      simp only [h2] at h
      cases h3 : env.generateContent img with
      | error e => simp only [h3] at h; exact nomatch h
      | ok text =>
        simp only [h3] at h
        cases h4 : env.jsonLoads text with
        | error e => simp only [h4] at h; exact nomatch h
        | ok parsed =>
          simp only [h4] at h
          cases parsed with
          | obj f2 =>
              simp only [pyDictGet] at h
              injection h with h5
              exact ⟨_, h5.symm⟩
          | null => simp only [pyDictGet] at h; exact nomatch h
          | bool b => simp only [pyDictGet] at h; exact nomatch h
          | num n => simp only [pyDictGet] at h; exact nomatch h
          | str s2 => simp only [pyDictGet] at h; exact nomatch h
          | arr a => simp only [pyDictGet] at h; exact nomatch h

/-- The invoker always returns either a success dict or an error dict. -/
theorem run_gemini_ocr_shape (env : OcrEnv) (d : String) (mt : Option Json) :
    (∃ t, run_gemini_ocr env d mt = [("extractedText", t)]) ∨
    (∃ m, run_gemini_ocr env d mt = [("error", Json.str m)]) := by
  unfold run_gemini_ocr
  cases h : run_gemini_ocr_try env d with
  | ok out =>
      obtain ⟨t, ht⟩ := run_gemini_ocr_try_ok_shape env d out h
      exact Or.inl ⟨t, by rw [ht]⟩
  | error e =>
      right
      by_cases he : e.isApiError = true
      · refine ⟨"API Error: " ++ e.className ++ ". Check your API key or usage limits.", ?_⟩
        simp [he, apiErrDict]
      · refine ⟨"Internal Server Error: " ++ e.className ++ ". Details: " ++ e.message, ?_⟩
        simp [he, internalErrDict]

theorem dispatch_success (t : Json) :
    dispatchOcrResult [("extractedText", t)] = HandlerResult.ok 200 [("extractedText", t)] := rfl

theorem dispatch_error (m : Json) :
    dispatchOcrResult [("error", m)] = HandlerResult.ok 500 [("error", m)] := rfl

theorem dispatchOcrResult_ok (r : PyDict) :
    dispatchOcrResult r = HandlerResult.ok 500 r ∨ dispatchOcrResult r = HandlerResult.ok 200 r := by
  unfold dispatchOcrResult
  split
  · exact Or.inl rfl
  · exact Or.inr rfl

/-- A request that passes all three validation steps hands exactly the
part of `imageBase64` after the first comma to `run_gemini_ocr` and
returns the dispatch of its result. -/
theorem endpoint_forwards (env : OcrEnv) (fields : PyDict) (s : String)
    (payload : List Char) (mtv : Json)
    (hb : pyLookup fields "imageBase64" = some (Json.str s))
    (hm : pyLookup fields "fileMimeType" = some mtv)
    (hmt : mtv.pyTruthy = true)
    (hc : afterFirstComma s.data = some payload) :
    run_ocr_endpoint env ⟨true, some (Json.obj fields)⟩ =
      dispatchOcrResult (run_gemini_ocr env (String.mk payload) (some mtv)) := by
  have hs : s.data.isEmpty = false := afterFirstComma_ne_nil s.data payload hc
  have hb2 : pyTruthyOpt (some (Json.str s)) = true := by
    simp [pyTruthyOpt, Json.pyTruthy, hs]
  have hm2 : pyTruthyOpt (some mtv) = true := by
    simp [pyTruthyOpt, hmt]
  simp [run_ocr_endpoint, hb, hm, hb2, hm2, stripDataUri, hc]

/-- Failure of the base64 decoding stage aborts the `try` block. -/
theorem try_error_of_b64 (env : OcrEnv) (d : String) (e : PyExn)
    (h : env.b64decode d = .error e) : run_gemini_ocr_try env d = .error e := by
  unfold run_gemini_ocr_try
  rw [h]

/-- Failure of the image parsing stage aborts the `try` block. -/
theorem try_error_of_imageOpen (env : OcrEnv) (d : String) (bs : Bytes) (e : PyExn)
    (h1 : env.b64decode d = .ok bs) (h2 : env.imageOpen bs = .error e) :
    run_gemini_ocr_try env d = .error e := by
  unfold run_gemini_ocr_try
  simp only [h1, h2]

/-- Failure of the model call aborts the `try` block. -/
theorem try_error_of_generate (env : OcrEnv) (d : String) (bs : Bytes) (img : Nat) (e : PyExn)
    (h1 : env.b64decode d = .ok bs) (h2 : env.imageOpen bs = .ok img)
    (h3 : env.generateContent img = .error e) :
    run_gemini_ocr_try env d = .error e := by
  unfold run_gemini_ocr_try
  simp only [h1, h2, h3]

/-- Failure to parse the model's own output as JSON aborts the `try`
block. -/
theorem try_error_of_jsonLoads (env : OcrEnv) (d : String) (bs : Bytes) (img : Nat)
    (text : String) (e : PyExn)
    (h1 : env.b64decode d = .ok bs) (h2 : env.imageOpen bs = .ok img)
    (h3 : env.generateContent img = .ok text) (h4 : env.jsonLoads text = .error e) :
    run_gemini_ocr_try env d = .error e := by
  unfold run_gemini_ocr_try
  simp only [h1, h2, h3, h4]

/-- Failure of the `.get` attribute access on the parsed model output
(an `AttributeError` when it is not a dict) aborts the `try` block. -/
theorem try_error_of_dictGet (env : OcrEnv) (d : String) (bs : Bytes) (img : Nat)
    (text : String) (j : Json) (e : PyExn)
    (h1 : env.b64decode d = .ok bs) (h2 : env.imageOpen bs = .ok img)
    (h3 : env.generateContent img = .ok text) (h4 : env.jsonLoads text = .ok j)
    (h5 : pyDictGet j "extractedText" = .error e) :
    run_gemini_ocr_try env d = .error e := by
  unfold run_gemini_ocr_try
  simp only [h1, h2, h3, h4, h5]

/-- A non-API exception in the `try` block is normalised to the generic
internal-error dict. -/
theorem run_gemini_ocr_internal (env : OcrEnv) (d : String) (mt : Option Json) (e : PyExn)
    (h : run_gemini_ocr_try env d = .error e) (hnapi : e.isApiError = false) :
    run_gemini_ocr env d mt = internalErrDict e := by
  unfold run_gemini_ocr
  rw [h]
  simp [hnapi]

/-- An API-level exception in the `try` block is normalised to the API
error dict. -/
theorem run_gemini_ocr_api (env : OcrEnv) (d : String) (mt : Option Json) (e : PyExn)
    (h : run_gemini_ocr_try env d = .error e) (hapi : e.isApiError = true) :
    run_gemini_ocr env d mt = apiErrDict e := by
  unfold run_gemini_ocr
  rw [h]
  simp [hapi]

/-- Evaluation of the handler on a request whose body is a JSON object:
the two field lookups, the truthiness guard, and the data-URI split. -/
theorem run_ocr_endpoint_obj (env : OcrEnv) (fields : PyDict) :
    run_ocr_endpoint env ⟨true, some (Json.obj fields)⟩ =
      (if !pyTruthyOpt (pyLookup fields "imageBase64") ||
          !pyTruthyOpt (pyLookup fields "fileMimeType") then
        HandlerResult.ok 400 missingBody
      else
        match stripDataUri (pyLookup fields "imageBase64") with
        | .stripped base64_data =>
            dispatchOcrResult (run_gemini_ocr env base64_data (pyLookup fields "fileMimeType"))
        | .indexError => HandlerResult.ok 400 invalidB64Body
        | .attrError tn =>
            HandlerResult.uncaughtExn
              ⟨"AttributeError", tn ++ " object has no attribute split", false⟩) := rfl

/-! ### The claims -/

/-- C1, counterexample: the claim that every failure of a single request
is converted by the handler into a JSON error response is false — a body
that is valid JSON but a JSON array makes `data.get("imageBase64")`
raise an `AttributeError` that propagates uncaught past the handler. -/
theorem c1_counterexample :
    run_ocr_endpoint plainEnv arrayBodyReq =
      HandlerResult.uncaughtExn ⟨"AttributeError", "list object has no attribute get", false⟩ := rfl

/-- C1, amended: every failure inside the OCR invoker is caught, and for
every request whose Content-Type is not JSON, or whose body is a JSON
object in which the `imageBase64` value is falsy or a string, the
handler itself produces the response, with status 200, 400 or 500 and
never an uncaught exception.  (A valid-JSON non-object body, or a truthy
non-string `imageBase64`, instead raises `AttributeError` past the
handler, as the counterexample shows.) -/
theorem c1_amended (env : OcrEnv) (req : HttpRequest)
    (h : req.is_json = false ∨
      ∃ fields, req.parsedBody = some (Json.obj fields) ∧
        (pyTruthyOpt (pyLookup fields "imageBase64") = false ∨
         ∃ s, pyLookup fields "imageBase64" = some (Json.str s))) :
    ∃ status body, run_ocr_endpoint env req = HandlerResult.ok status body ∧
      (status = 200 ∨ status = 400 ∨ status = 500) := by
  by_cases hij : req.is_json = true
  case neg =>
    have hij2 : req.is_json = false := by
      cases hreq : req.is_json
      · rfl
      · exact absurd hreq hij
    exact ⟨400, reqMustBeJsonBody, by simp [run_ocr_endpoint, hij2], Or.inr (Or.inl rfl)⟩
  case pos =>
    rcases h with hf | ⟨fields, hpb, hb⟩
    · rw [hf] at hij; exact nomatch hij
    · obtain ⟨ij, pb⟩ := req
      simp only at hpb hij
      subst hpb hij
      rw [run_ocr_endpoint_obj]
      cases hB : pyTruthyOpt (pyLookup fields "imageBase64") with
      | false =>
          refine ⟨400, missingBody, ?_, Or.inr (Or.inl rfl)⟩
          simp
      | true =>
        cases hM : pyTruthyOpt (pyLookup fields "fileMimeType") with
        | false =>
            refine ⟨400, missingBody, ?_, Or.inr (Or.inl rfl)⟩
            simp
        | true =>
          rcases hb with hfalsy | ⟨s, hs⟩
          · rw [hfalsy] at hB; exact nomatch hB
          · rw [hs]
            simp only [Bool.not_true, Bool.or_self, Bool.false_eq_true, if_false, stripDataUri]
            cases hc : afterFirstComma s.data with
            | none => exact ⟨400, invalidB64Body, rfl, Or.inr (Or.inl rfl)⟩
            | some payload =>
                rcases dispatchOcrResult_ok
                    (run_gemini_ocr env (String.mk payload) (pyLookup fields "fileMimeType"))
                  with hd | hd
                · exact ⟨500, _, hd, Or.inr (Or.inr rfl)⟩
                · exact ⟨200, _, hd, Or.inl rfl⟩

/-- C1, witness for the amended theorem at a concrete request. -/
theorem c1_amended_witness :
    ∃ status body,
      run_ocr_endpoint plainEnv ⟨true, some (Json.obj okFields)⟩ = HandlerResult.ok status body ∧
      (status = 200 ∨ status = 400 ∨ status = 500) :=
  c1_amended plainEnv ⟨true, some (Json.obj okFields)⟩
    (Or.inr ⟨okFields, rfl, Or.inr ⟨"data:image/png;base64,AAAA", rfl⟩⟩)

/-- C2, counterexample: a request whose Content-Type is JSON but whose
body fails to parse as JSON is answered by the framework's
`BadRequest` 400, not by the handler's `{"error": "Request must be
JSON"}` body, so the first validation step does not reject exactly the
unparseable bodies. -/
theorem c2_counterexample :
    run_ocr_endpoint plainEnv badJsonReq = HandlerResult.badRequestAbort ∧
    run_ocr_endpoint plainEnv badJsonReq ≠ HandlerResult.ok 400 reqMustBeJsonBody :=
  ⟨rfl, fun h =>
    nomatch (h : HandlerResult.badRequestAbort = HandlerResult.ok 400 reqMustBeJsonBody)⟩

/-- C2, amended: the handler's first check answers 400
`{"error": "Request must be JSON"}` exactly when the Content-Type does
not indicate JSON (whatever the body); when the Content-Type is JSON but
the body fails to parse, `request.json` raises `BadRequest` and the
framework, not the handler, produces the 400 response. -/
theorem c2_amended (env : OcrEnv) (req : HttpRequest) :
    (req.is_json = false → run_ocr_endpoint env req = HandlerResult.ok 400 reqMustBeJsonBody) ∧
    (req.is_json = true → req.parsedBody = none →
      run_ocr_endpoint env req = HandlerResult.badRequestAbort) := by
  constructor
  · intro h
    simp [run_ocr_endpoint, h]
  · intro h hb
    simp [run_ocr_endpoint, h, hb]

/-- C2, witness for the amended theorem at concrete requests. -/
theorem c2_amended_witness :
    run_ocr_endpoint plainEnv ⟨false, none⟩ = HandlerResult.ok 400 reqMustBeJsonBody ∧
    run_ocr_endpoint plainEnv badJsonReq = HandlerResult.badRequestAbort :=
  ⟨(c2_amended plainEnv ⟨false, none⟩).1 rfl, (c2_amended plainEnv badJsonReq).2 rfl rfl⟩

/-- C3: for every request that passes the three validation steps, the
response is determined solely by the invoker's dict: an error dict gives
HTTP 500 with `{"error": <message>}`, a success dict gives HTTP 200 with
`{"extractedText": <text>}`, and these are the only two outcomes. -/
theorem c3_two_outcomes (env : OcrEnv) (fields : PyDict) (s : String)
    (payload : List Char) (mtv : Json)
    (hb : pyLookup fields "imageBase64" = some (Json.str s))
    (hm : pyLookup fields "fileMimeType" = some mtv)
    (hmt : mtv.pyTruthy = true)
    (hc : afterFirstComma s.data = some payload) :
    (∃ t, run_gemini_ocr env (String.mk payload) (some mtv) = [("extractedText", t)] ∧
      run_ocr_endpoint env ⟨true, some (Json.obj fields)⟩ =
        HandlerResult.ok 200 [("extractedText", t)]) ∨
    (∃ m, run_gemini_ocr env (String.mk payload) (some mtv) = [("error", Json.str m)] ∧
      run_ocr_endpoint env ⟨true, some (Json.obj fields)⟩ =
        HandlerResult.ok 500 [("error", Json.str m)]) := by
  have hfwd := endpoint_forwards env fields s payload mtv hb hm hmt hc
  rcases run_gemini_ocr_shape env (String.mk payload) (some mtv) with ⟨t, ht⟩ | ⟨m, hmm⟩
  · exact Or.inl ⟨t, ht, by rw [hfwd, ht, dispatch_success]⟩
  · exact Or.inr ⟨m, hmm, by rw [hfwd, hmm]; exact dispatch_error _⟩

/-- C3, witness at a concrete valid request. -/
theorem c3_two_outcomes_witness :
    (∃ t, run_gemini_ocr plainEnv (String.mk "AAAA".data) (some (Json.str "image/png")) =
        [("extractedText", t)] ∧
      run_ocr_endpoint plainEnv ⟨true, some (Json.obj okFields)⟩ =
        HandlerResult.ok 200 [("extractedText", t)]) ∨
    (∃ m, run_gemini_ocr plainEnv (String.mk "AAAA".data) (some (Json.str "image/png")) =
        [("error", Json.str m)] ∧
      run_ocr_endpoint plainEnv ⟨true, some (Json.obj okFields)⟩ =
        HandlerResult.ok 500 [("error", Json.str m)]) :=
  c3_two_outcomes plainEnv okFields "data:image/png;base64,AAAA" "AAAA".data
    (Json.str "image/png") rfl rfl rfl rfl

/-- C4: when `imageBase64` is a string of the form
`<comma-free part>,<remainder>`, the handler forwards exactly the whole
remainder after the first comma to `run_gemini_ocr` (even if it contains
further commas) and the part before the first comma is discarded. -/
theorem c4_strips_at_first_comma (env : OcrEnv) (fields : PyDict) (s : String)
    (pre post : List Char) (mtv : Json)
    (hb : pyLookup fields "imageBase64" = some (Json.str s))
    (hsdata : s.data = pre ++ ',' :: post)
    (hpre : ',' ∉ pre)
    (hm : pyLookup fields "fileMimeType" = some mtv)
    (hmt : mtv.pyTruthy = true) :
    run_ocr_endpoint env ⟨true, some (Json.obj fields)⟩ =
      dispatchOcrResult (run_gemini_ocr env (String.mk post) (some mtv)) := by
  apply endpoint_forwards env fields s post mtv hb hm hmt
  rw [hsdata]
  exact afterFirstComma_append pre post hpre

/-- C4, witness: the payload `AA,BB` containing a further comma is
forwarded whole. -/
theorem c4_strips_at_first_comma_witness :
    run_ocr_endpoint plainEnv ⟨true, some (Json.obj multiCommaFields)⟩ =
      dispatchOcrResult
        (run_gemini_ocr plainEnv (String.mk "AA,BB".data) (some (Json.str "image/png"))) :=
  c4_strips_at_first_comma plainEnv multiCommaFields "data:image/png;base64,AA,BB"
    "data:image/png;base64".data "AA,BB".data (Json.str "image/png")
    rfl rfl (by decide) rfl rfl

/-- C5: when the model's text parses as a JSON object lacking the key
`extractedText`, the invoker substitutes the literal
"No text could be extracted." and the endpoint answers HTTP 200 with it. -/
theorem c5_missing_key_defaults (env : OcrEnv) (fields : PyDict) (s : String)
    (payload : List Char) (mtv : Json) (bs : Bytes) (img : Nat) (text : String)
    (parsedFields : PyDict)
    (hb : pyLookup fields "imageBase64" = some (Json.str s))
    (hm : pyLookup fields "fileMimeType" = some mtv)
    (hmt : mtv.pyTruthy = true)
    (hc : afterFirstComma s.data = some payload)
    (h1 : env.b64decode (String.mk payload) = .ok bs)
    (h2 : env.imageOpen bs = .ok img)
    (h3 : env.generateContent img = .ok text)
    (h4 : env.jsonLoads text = .ok (Json.obj parsedFields))
    (h5 : pyLookup parsedFields "extractedText" = none) :
    run_gemini_ocr env (String.mk payload) (some mtv) =
      [("extractedText", Json.str "No text could be extracted.")] ∧
    run_ocr_endpoint env ⟨true, some (Json.obj fields)⟩ =
      HandlerResult.ok 200 [("extractedText", Json.str "No text could be extracted.")] := by
  have hocr : run_gemini_ocr env (String.mk payload) (some mtv) =
      [("extractedText", Json.str "No text could be extracted.")] := by
    unfold run_gemini_ocr run_gemini_ocr_try
    simp only [h1, h2, h3, h4, pyDictGet, h5, Option.getD_none, noTextMsg]
  refine ⟨hocr, ?_⟩
  rw [endpoint_forwards env fields s payload mtv hb hm hmt hc, hocr, dispatch_success]

/-- C5, witness: a mocked model answering an empty JSON object. -/
theorem c5_missing_key_defaults_witness :
    run_gemini_ocr emptyObjEnv (String.mk "AAAA".data) (some (Json.str "image/png")) =
      [("extractedText", Json.str "No text could be extracted.")] ∧
    run_ocr_endpoint emptyObjEnv ⟨true, some (Json.obj okFields)⟩ =
      HandlerResult.ok 200 [("extractedText", Json.str "No text could be extracted.")] :=
  c5_missing_key_defaults emptyObjEnv okFields "data:image/png;base64,AAAA" "AAAA".data
    (Json.str "image/png") [7] 0 "E" [] rfl rfl rfl rfl rfl rfl rfl rfl rfl

/-- C6: when the model call raises an API-level error, the invoker
returns the error dict "API Error: <class>. Check your API key or usage
limits." and the endpoint answers HTTP 500 with that message. -/
theorem c6_api_error (env : OcrEnv) (fields : PyDict) (s : String) (payload : List Char)
    (mtv : Json) (bs : Bytes) (img : Nat) (e : PyExn)
    (hb : pyLookup fields "imageBase64" = some (Json.str s))
    (hm : pyLookup fields "fileMimeType" = some mtv)
    (hmt : mtv.pyTruthy = true)
    (hc : afterFirstComma s.data = some payload)
    (h1 : env.b64decode (String.mk payload) = .ok bs)
    (h2 : env.imageOpen bs = .ok img)
    (h3 : env.generateContent img = .error e)
    (hapi : e.isApiError = true) :
    run_gemini_ocr env (String.mk payload) (some mtv) =
      [("error", Json.str ("API Error: " ++ e.className ++ ". Check your API key or usage limits."))] ∧
    run_ocr_endpoint env ⟨true, some (Json.obj fields)⟩ =
      HandlerResult.ok 500
        [("error", Json.str ("API Error: " ++ e.className ++ ". Check your API key or usage limits."))] := by
  have htry := try_error_of_generate env (String.mk payload) bs img e h1 h2 h3
  have hocr := run_gemini_ocr_api env (String.mk payload) (some mtv) e htry hapi
  refine ⟨hocr, ?_⟩
  rw [endpoint_forwards env fields s payload mtv hb hm hmt hc, hocr]
  exact dispatch_error _

/-- C6, witness: a mocked model raising a `ClientError`. -/
theorem c6_api_error_witness :
    run_gemini_ocr apiFailEnv (String.mk "AAAA".data) (some (Json.str "image/png")) =
      [("error", Json.str "API Error: ClientError. Check your API key or usage limits.")] ∧
    run_ocr_endpoint apiFailEnv ⟨true, some (Json.obj okFields)⟩ =
      HandlerResult.ok 500
        [("error", Json.str "API Error: ClientError. Check your API key or usage limits.")] :=
  c6_api_error apiFailEnv okFields "data:image/png;base64,AAAA" "AAAA".data
    (Json.str "image/png") [7] 0 apiExn rfl rfl rfl rfl rfl rfl rfl rfl

/-- C7: every non-API exception raised inside the invoker — at any of
the five sites of the `try` block: base64 decode failure, image parse
failure, a non-API error from the model call itself, failure to parse
the model's own output as JSON, or the `AttributeError` from `.get` on
a non-dict model output — yields the same generic dict
"Internal Server Error: <class>. Details: <message>". -/
theorem c7_internal_error (env : OcrEnv) (data : String) (mt : Option Json) (e : PyExn)
    (hnapi : e.isApiError = false)
    (h : env.b64decode data = .error e ∨
         (∃ bs, env.b64decode data = .ok bs ∧ env.imageOpen bs = .error e) ∨
         (∃ bs img, env.b64decode data = .ok bs ∧ env.imageOpen bs = .ok img ∧
            env.generateContent img = .error e) ∨
         (∃ bs img text, env.b64decode data = .ok bs ∧ env.imageOpen bs = .ok img ∧
            env.generateContent img = .ok text ∧ env.jsonLoads text = .error e) ∨
         (∃ bs img text j, env.b64decode data = .ok bs ∧ env.imageOpen bs = .ok img ∧
            env.generateContent img = .ok text ∧ env.jsonLoads text = .ok j ∧
            pyDictGet j "extractedText" = .error e)) :
    run_gemini_ocr env data mt =
      [("error", Json.str ("Internal Server Error: " ++ e.className ++ ". Details: " ++ e.message))] := by
  have htry : run_gemini_ocr_try env data = .error e := by
    rcases h with h1 | ⟨bs, h1, h2⟩ | ⟨bs, img, h1, h2, h3⟩ |
      ⟨bs, img, text, h1, h2, h3, h4⟩ | ⟨bs, img, text, j, h1, h2, h3, h4, h5⟩
    · exact try_error_of_b64 env data e h1
    · exact try_error_of_imageOpen env data bs e h1 h2
    · exact try_error_of_generate env data bs img e h1 h2 h3
    · exact try_error_of_jsonLoads env data bs img text e h1 h2 h3 h4
    · exact try_error_of_dictGet env data bs img text j e h1 h2 h3 h4 h5
  exact run_gemini_ocr_internal env data mt e htry hnapi

/-- C7, witness: a failing base64 decode. -/
theorem c7_internal_error_witness :
    run_gemini_ocr decodeFailEnv "AAAA" none =
      [("error", Json.str "Internal Server Error: ValueError. Details: bad payload")] :=
  c7_internal_error decodeFailEnv "AAAA" none vErr rfl (Or.inl rfl)

/-- C8: a JSON-object body in which `imageBase64` or `fileMimeType` is
absent or the empty string is answered 400 with
`{"error": "Missing image data or MIME type in request."}`, after the
JSON check (the body did parse as an object) and regardless of the
comma-separator check. -/
theorem c8_missing_field_400 (env : OcrEnv) (fields : PyDict)
    (h : pyLookup fields "imageBase64" = none ∨
         pyLookup fields "imageBase64" = some (Json.str "") ∨
         pyLookup fields "fileMimeType" = none ∨
         pyLookup fields "fileMimeType" = some (Json.str "")) :
    run_ocr_endpoint env ⟨true, some (Json.obj fields)⟩ = HandlerResult.ok 400 missingBody := by
  have he : pyTruthyOpt (some (Json.str "")) = false := rfl
  have hn : pyTruthyOpt none = false := rfl
  rw [run_ocr_endpoint_obj]
  rcases h with h | h | h | h <;> rw [h] <;> simp [he, hn]

/-- C8, witness: a body lacking `fileMimeType`. -/
theorem c8_missing_field_400_witness :
    run_ocr_endpoint plainEnv ⟨true, some (Json.obj missingMimeFields)⟩ =
      HandlerResult.ok 400 missingBody :=
  c8_missing_field_400 plainEnv missingMimeFields (Or.inr (Or.inr (Or.inl rfl)))

/-- C9: the invoker's result never depends on the `mime_type` argument —
for the same payload and the same external behaviour, any two MIME type
values give identical results (the parameter is never used). -/
theorem c9_mime_type_irrelevant (env : OcrEnv) (base64_image_data : String)
    (m1 m2 : Option Json) :
    run_gemini_ocr env base64_image_data m1 = run_gemini_ocr env base64_image_data m2 := rfl

/-- C10: a request whose `imageBase64` ends at its first comma (empty
payload) with a truthy MIME type passes all three validation steps; the
empty payload base64-decodes to zero bytes, image parsing fails, and the
response is HTTP 500 with the generic internal-error message, not a 400
validation error. -/
theorem c10_empty_payload_500 (env : OcrEnv) (fields : PyDict) (s : String)
    (mtv : Json) (e : PyExn)
    (hb : pyLookup fields "imageBase64" = some (Json.str s))
    (hm : pyLookup fields "fileMimeType" = some mtv)
    (hmt : mtv.pyTruthy = true)
    (hc : afterFirstComma s.data = some [])
    (hdec : env.b64decode "" = Except.ok [])
    (himg : env.imageOpen [] = Except.error e)
    (hnapi : e.isApiError = false) :
    run_ocr_endpoint env ⟨true, some (Json.obj fields)⟩ =
      HandlerResult.ok 500
        [("error", Json.str ("Internal Server Error: " ++ e.className ++ ". Details: " ++ e.message))] := by
  have hdec2 : env.b64decode (String.mk []) = Except.ok [] := hdec
  have htry := try_error_of_imageOpen env (String.mk []) [] e hdec2 himg
  have hocr := run_gemini_ocr_internal env (String.mk []) (some mtv) e htry hnapi
  rw [endpoint_forwards env fields s [] mtv hb hm hmt hc, hocr]
  exact dispatch_error _

/-- C10, witness: the data URI `data:image/png;base64,` with empty
payload yields the PIL failure as a 500. -/
theorem c10_empty_payload_500_witness :
    run_ocr_endpoint emptyPayloadEnv ⟨true, some (Json.obj emptyPayloadFields)⟩ =
      HandlerResult.ok 500
        [("error",
          Json.str "Internal Server Error: UnidentifiedImageError. Details: cannot identify image file")] :=
  c10_empty_payload_500 emptyPayloadEnv emptyPayloadFields "data:image/png;base64,"
    (Json.str "image/png") imgErr rfl rfl rfl rfl rfl rfl rfl
